import Mathlib

/-!
Shallow embedding of `src/bigml/association.py` (a local Association Rules
explorer).  Pure functions of the module are translated to Lean functions;
Python exceptions are modelled with `Except`; the in-place list mutation done
by `Association.describe` is modelled by explicit state passing over a list of
row objects.  Machine floats of the source are modelled as exact rationals
(`ℚ`); rational values are always built with `mkRat` so that every definition
evaluates inside the kernel.

The value objects `Item` and `AssociationRule` (and the field table coming
from `ModelFields`) are consumed by the source as opaque records and their
defining modules are not part of the repository snapshot; they are modelled
from the specification where noted.
-/

namespace Bigml

/-- Modelled from the spec: a metric value attached to a rule is "either a
scalar or a `[fraction, count]` pair" (spec section 3); the source
distinguishes the two cases with `isinstance(metric_value, list)`. -/
inductive MetricValue where
  | scalar (q : ℚ)
  | pair (fraction : ℚ) (count : ℕ)
deriving DecidableEq

/-- Modelled from the spec: `bigml/item.py` is not under `src/`.  An item is an
immutable record with `index`, `field_id`, `name` and a `complement` flag
(spec section 3); `description` stands for the string returned by the opaque
`item.describe()` call (field name plus value, spec section 4.3). -/
structure Item where
  index : ℕ
  field_id : String
  name : String
  complement : Bool
  description : String
deriving DecidableEq

instance : Inhabited Item := ⟨⟨0, "", "", false, ""⟩⟩

/-- Modelled from the spec: `bigml/associationrule.py` is not under `src/`.
A rule is an immutable record with `rule_id`, `lhs`/`rhs` index sequences and
the metrics listed in spec section 3.  Scalar metrics are rationals; the two
coverages may also be `[fraction, count]` pairs. -/
structure AssociationRule where
  rule_id : String
  lhs : List ℕ
  rhs : List ℕ
  lhs_cover : MetricValue
  rhs_cover : MetricValue
  support : ℚ
  confidence : ℚ
  leverage : ℚ
  lift : ℚ
  p_value : ℚ
deriving DecidableEq

/-- Modelled from the spec: section 4.2 states that the `strength` attribute
read by `get_rules` "denotes `confidence`". -/
def AssociationRule.strength (r : AssociationRule) : ℚ := r.confidence

/-- The fixed metric order of `ASSOCIATION_METRICS` (source lines 62-63). -/
inductive Metric where
  | lhs_cover | support | confidence | leverage | lift | p_value
deriving DecidableEq

/-- The list `ASSOCIATION_METRICS` (source lines 62-63). -/
def ASSOCIATION_METRICS : List Metric :=
  [.lhs_cover, .support, .confidence, .leverage, .lift, .p_value]

/-- The table `METRIC_LITERALS` (source lines 65-67). -/
def METRIC_LITERALS : Metric → String
  | .confidence => "Confidence"
  | .support => "Support"
  | .leverage => "Leverage"
  | .lhs_cover => "Coverage"
  | .p_value => "p-value"
  | .lift => "Lift"

/-- The Python attribute name of a metric, used only to mirror the dead
`metric_key` local of `get_metric_string`. -/
def metricName : Metric → String
  | .lhs_cover => "lhs_cover"
  | .support => "support"
  | .confidence => "confidence"
  | .leverage => "leverage"
  | .lift => "lift"
  | .p_value => "p_value"

/-- The lookup `getattr(rule, metric)` for the six metric attributes; scalar
attributes are wrapped as scalar metric values. -/
def getattrMetric (rule : AssociationRule) : Metric → MetricValue
  | .lhs_cover => rule.lhs_cover
  | .support => .scalar rule.support
  | .confidence => .scalar rule.confidence
  | .leverage => .scalar rule.leverage
  | .lift => .scalar rule.lift
  | .p_value => .scalar rule.p_value

/-- The constant `INDENT` (source line 69). -/
def INDENT : String := "    "

/-- Rounding of `num / den` (with `den > 0`) to the nearest integer with ties
away from zero: the behaviour of the Python 2 built-in `round` (the source
uses `basestring`, hence runs on Python 2). -/
def roundHalfAwayNum (num den : ℤ) : ℤ :=
  if 0 ≤ num then (2 * num + den).fdiv (2 * den)
  else -((2 * (-num) + den).fdiv (2 * den))

/-- The value `round(x, 4) * 10^4` as an integer: the source computes
`round(metric_value, 4)` before scaling to a percentage. -/
def round4_scaled (x : ℚ) : ℤ := roundHalfAwayNum (x.num * 10000) (x.den : ℤ)

/-- Renders the integer `n` of hundredths as a fixed two-decimal string, i.e.
`"%.2f" % (n / 100)`.  After `round(v, 4) * 100` the value has an exact
two-decimal representation, so no further rounding happens in `"%.2f"`. -/
def formatCents (n : ℤ) : String :=
  (if n < 0 then "-" else "") ++ toString (n.natAbs / 100) ++ "." ++
    (if n.natAbs % 100 < 10 then "0" else "") ++ toString (n.natAbs % 100)

/-- The string `"%.2f" % (round(v, 4) * 100)` of the source (lines 84-89). -/
def pctString (v : ℚ) : String := formatCents (round4_scaled v)

/-- The smallest exponent `k ≤ 17` such that the denominator divides `10^k`,
used to print a rational exactly the way Python prints the float it models. -/
def pow10exp (den : ℕ) : Option ℕ :=
  (List.range 18).find? (fun k => 10 ^ k % den == 0)

/-- The string `"%s" % v` for a float value `v`: the decimal rendering of the rational
(Python prints floats such as `0.2` or `1.5` in this exact decimal form; a
value with no finite decimal expansion is rendered as a plain fraction, a case
that cannot arise for the short decimal literals used in this development). -/
def ratStr (x : ℚ) : String :=
  match pow10exp x.den with
  | some 0 => toString x.num ++ ".0"
  | some k =>
      let scaled : ℕ := x.num.natAbs * (10 ^ k / x.den)
      let fstr := toString (scaled % 10 ^ k)
      (if x.num < 0 then "-" else "") ++ toString (scaled / 10 ^ k) ++ "." ++
        String.mk (List.replicate (k - fstr.length) '0') ++ fstr
  | none => toString x.num ++ "/" ++ toString x.den

/-- One `"Label=value"` fragment of `get_metric_string` (source lines 77-92).
The source computes a local `metric_key` (swapping `lhs_cover` for
`rhs_cover` when `reverse` is set) but then never uses it: both the metric
value (`getattr(rule, metric)`) and the label (`METRIC_LITERALS[metric]`) are
looked up with `metric` itself.  The dead local is kept verbatim. -/
def metric_fragment (rule : AssociationRule) (reverse : Bool) (metric : Metric) : String :=
  let _metric_key : String :=
    if reverse && metric == Metric.lhs_cover then "rhs_cover" else metricName metric
  match getattrMetric rule metric with
  | .pair f c =>
      METRIC_LITERALS metric ++ "=" ++ pctString f ++ "% (" ++ toString c ++ ")"
  | .scalar v =>
      if metric == Metric.confidence then METRIC_LITERALS metric ++ "=" ++ pctString v ++ "%"
      else METRIC_LITERALS metric ++ "=" ++ ratStr v

/-- The function `get_metric_string(rule, reverse)` (source lines 72-93). -/
def get_metric_string (rule : AssociationRule) (reverse : Bool) : String :=
  String.intercalate "; " (ASSOCIATION_METRICS.map (metric_fragment rule reverse))

/-- The Rule Explorer: the field table (pairs of field id and field name,
modelled from the spec since `ModelFields` is out of scope), the ordered item
list and the ordered rule list.  Construction from the remote resource (the
`__init__` glue) is out of scope (spec section 1). -/
structure Association where
  fields : List (String × String)
  items : List Item
  rules : List AssociationRule

/-- The Python exceptions the embedded operations can raise. -/
inductive PyErr where
  | indexError
  | attributeError
  | unboundLocalError
  | nameError
  | valueError (msg : String)
deriving DecidableEq

/-- An element of the `item_list` argument of `get_rules`: either an `Item`
record, a name string, or (`other`) a Python value of any further type, which
the duck-typed `isinstance` tests of the source both reject. -/
inductive ItemOrName where
  | item (it : Item)
  | name (s : String)
  | other
deriving DecidableEq

/-- Resolution of the `field` argument of `get_items`: the body of the
`if field:` block (source lines 175-182).  A known field id is used as is,
otherwise the name table is consulted, and an unresolvable argument raises
`ValueError`.  `get_items` runs this block only for a truthy field argument
(a non-empty string): `None` and the falsy empty string skip it. -/
def field_resolve (e : Association) (field : String) : Except PyErr String :=
  if (e.fields.map Prod.fst).contains field then .ok field
  else
    match e.fields.find? (fun p => p.2 == field) with
    | some p => .ok p.1
    | none =>
        .error (.valueError
          ("Failed to find a field name or ID corresponding to " ++ field ++ "."))

/-- The `field_filter` closure of `get_items` (source lines 192-198): with no
field argument (`field is None`) every item passes; otherwise the item is
compared against the `field_id` local.  When the field argument was truthy,
`field_id` holds the resolved id; when it was the falsy empty string, the
`if field:` resolution block was skipped, `field_id` was never assigned, and
referencing it raises `NameError`. -/
def field_filter (field : Option String) (field_id : Option String) (item : Item) :
    Except PyErr Bool :=
  match field with
  | none => .ok true
  | some _ =>
      match field_id with
      | some fid => .ok (item.field_id == fid)
      | none => .error .nameError

/-- The `names_filter` closure of `get_items` (source lines 200-206): the
membership test `item.name in names` compares a string against each list
element, so elements that are not strings never match. -/
def names_filter (names : Option (List ItemOrName)) (item : Item) : Bool :=
  match names with
  | none => true
  | some ns => ns.contains (ItemOrName.name item.name)

/-- The `filter_function_set` closure of `get_items` (source lines 184-190). -/
def filter_function_set_items (filter_function : Option (Item → Bool)) (item : Item) : Bool :=
  match filter_function with
  | none => true
  | some f => f item

/-- The item loop of `get_items` (source lines 208-213): each stored item is
tested against the three filters (the `all([...])` list is built eagerly, so
`field_filter` runs for every item) and the survivors are collected in stored
order. -/
def get_items_loop (field field_id : Option String) (names : Option (List ItemOrName))
    (filter_function : Option (Item → Bool)) : List Item → Except PyErr (List Item)
  | [] => .ok []
  | item :: rest => do
      let fb ← field_filter field field_id item
      let tail ← get_items_loop field field_id names filter_function rest
      Except.ok (if [fb, names_filter names item,
                     filter_function_set_items filter_function item].all id
                 then item :: tail else tail)

/-- The value of the `field_id` local of `get_items` after the `if field:`
guard (source lines 175-182): only a truthy (non-empty) field string runs the
resolution block; `None` and the falsy empty string skip it, leaving
`field_id` unassigned (`none`). -/
def resolve_field_id (e : Association) (field : Option String) :
    Except PyErr (Option String) :=
  match field with
  | none => Except.ok none
  | some f =>
      if f = "" then Except.ok none
      else (field_resolve e f).map some

/-- The method `get_items(field, names, filter_function)` (source lines
168-213).  The resolution block is guarded by `if field:` (Python
truthiness), so it runs only for a non-empty field string; `None` and the
empty string skip it, leaving the `field_id` local unassigned. -/
def Association.get_items (e : Association) (field : Option String)
    (names : Option (List ItemOrName)) (filter_function : Option (Item → Bool)) :
    Except PyErr (List Item) := do
  let field_id ← resolve_field_id e field
  get_items_loop field field_id names filter_function e.items

/-- The `item_list_set` closure of `get_rules` (source lines 269-287).  The
first element of the list is inspected unguardedly; on an `Item` first element
every element must be an `Item` (otherwise the comprehension raises
`AttributeError`); on a string first element the names are resolved through
`get_items`; on any other first element the local `items` is never assigned,
so the loops raise `UnboundLocalError` unless both sides of the rule are
empty. -/
def item_list_set (e : Association) (item_list : Option (List ItemOrName))
    (rule : AssociationRule) : Except PyErr Bool :=
  match item_list with
  | none => .ok true
  | some [] => .error .indexError
  | some (first :: rest) =>
    match first with
    | .item _ => do
        let items ← (first :: rest).mapM (fun el =>
          match el with
          | .item it => Except.ok it.index
          | _ => Except.error PyErr.attributeError)
        Except.ok (rule.lhs.any (items.contains ·) || rule.rhs.any (items.contains ·))
    | .name _ =>
        -- `self.get_items(names=item_list)`; with no field argument the call
        -- cannot fail, so the error branch below is unreachable.
        let items :=
          (match Association.get_items e none (some (first :: rest)) none with
           | .ok its => its
           | .error _ => []).map Item.index
        Except.ok (rule.lhs.any (items.contains ·) || rule.rhs.any (items.contains ·))
    | .other =>
        if rule.lhs.isEmpty && rule.rhs.isEmpty then .ok false
        else .error .unboundLocalError

/-- The index set `items` computed by `item_list_set` before its membership
loops run, as an `Except`: the empty list fails on the unguarded
`item_list[0]` access, a first element that is neither an `Item` nor a string
leaves the local unassigned (`UnboundLocalError` once a loop body runs), an
`Item` first element maps every element to its index (`AttributeError` on a
non-`Item` element), and a string first element resolves the names through
`get_items`. -/
def resolve_item_indices (e : Association) : List ItemOrName → Except PyErr (List ℕ)
  | [] => .error .indexError
  | first :: rest =>
    match first with
    | .item _ =>
        (first :: rest).mapM (fun el =>
          match el with
          | .item it => Except.ok it.index
          | _ => Except.error PyErr.attributeError)
    | .name _ =>
        .ok ((match Association.get_items e none (some (first :: rest)) none with
              | .ok its => its
              | .error _ => []).map Item.index)
    | .other => .error .unboundLocalError

/-- The `leverage` closure of `get_rules` (source lines 229-235). -/
def leverage_check (min_leverage : Option ℚ) (rule : AssociationRule) : Bool :=
  match min_leverage with
  | none => true
  | some v => decide (v ≤ rule.leverage)

/-- The `strength` closure of `get_rules` (source lines 237-243). -/
def strength_check (min_strength : Option ℚ) (rule : AssociationRule) : Bool :=
  match min_strength with
  | none => true
  | some v => decide (v ≤ rule.strength)

/-- The `support` closure of `get_rules` (source lines 245-251). -/
def support_check (min_support : Option ℚ) (rule : AssociationRule) : Bool :=
  match min_support with
  | none => true
  | some v => decide (v ≤ rule.support)

/-- The `p_value` closure of `get_rules` (source lines 253-259). -/
def p_value_check (min_p_value : Option ℚ) (rule : AssociationRule) : Bool :=
  match min_p_value with
  | none => true
  | some v => decide (v ≤ rule.p_value)

/-- The `filter_function_set` closure of `get_rules` (source lines 261-267). -/
def filter_function_set (filter_function : Option (AssociationRule → Bool))
    (rule : AssociationRule) : Bool :=
  match filter_function with
  | none => true
  | some f => f rule

/-- The filtering loop of `get_rules` (source lines 289-296): every rule of
the stored list is tested against all six predicates (the `all([...])` list is
built eagerly, so `item_list_set` runs for every rule) and the survivors are
collected in stored order. -/
def get_rules_filter (e : Association)
    (min_leverage min_strength min_support min_p_value : Option ℚ)
    (item_list : Option (List ItemOrName))
    (filter_function : Option (AssociationRule → Bool)) :
    List AssociationRule → Except PyErr (List AssociationRule)
  | [] => .ok []
  | rule :: rest => do
      let ils ← item_list_set e item_list rule
      let tail ← get_rules_filter e min_leverage min_strength min_support min_p_value
        item_list filter_function rest
      Except.ok (if [leverage_check min_leverage rule, strength_check min_strength rule,
                     support_check min_support rule, p_value_check min_p_value rule,
                     ils, filter_function_set filter_function rule].all id
                 then rule :: tail else tail)

/-- The method `get_rules` (source lines 215-296). -/
def Association.get_rules (e : Association)
    (min_leverage min_strength min_support min_p_value : Option ℚ)
    (item_list : Option (List ItemOrName))
    (filter_function : Option (AssociationRule → Bool)) :
    Except PyErr (List AssociationRule) :=
  get_rules_filter e min_leverage min_strength min_support min_p_value
    item_list filter_function e.rules

/-- One cell of a rule row: Python rows are heterogeneous lists holding the
rule id string, the two index lists, numeric metric columns, and, after
`describe`, the substituted description strings. -/
inductive Cell where
  | str (s : String)
  | idxs (l : List ℕ)
  | num (q : ℚ)
deriving DecidableEq

/-- The index list held in a cell (the source iterates `rule_row[index]`,
which callers guarantee to be a list of item indices). -/
def cellIdxs : Cell → List ℕ
  | .idxs l => l
  | _ => []

/-- The string held in a cell (after `describe`, positions 1 and 2 hold the
description strings used by `summarize`). -/
def cellStr : Cell → String
  | .str s => s
  | _ => ""

/-- The fraction of a coverage or support metric value. -/
def mvFraction : MetricValue → ℚ
  | .scalar q => q
  | .pair f _ => f

/-- The count of a coverage or support metric value. -/
def mvCount : MetricValue → ℚ
  | .scalar q => q
  | .pair _ c => (c : ℚ)

/-- Modelled from the spec: `AssociationRule.to_CSV` is not under `src/`;
section 6 fixes the thirteen-column layout (`Rule ID, Antecedent, Consequent,
Antecedent Coverage %, Antecedent Coverage, Support %, Support, Confidence,
Leverage, Lift, p-value, Consequent Coverage %, Consequent Coverage`) with
percentage columns holding the fraction scaled by 100. -/
def AssociationRule.to_CSV (r : AssociationRule) : List Cell :=
  [.str r.rule_id, .idxs r.lhs, .idxs r.rhs,
   .num (mvFraction r.lhs_cover * 100), .num (mvCount r.lhs_cover),
   .num (r.support * 100), .num r.support,
   .num r.confidence, .num r.leverage, .num r.lift, .num r.p_value,
   .num (mvFraction r.rhs_cover * 100), .num (mvCount r.rhs_cover)]

/-- The text chosen for one item by `describe` (source lines 324-330): the
bare item name when the dataset has exactly one field and the item is not a
complement item, the full description otherwise.  Indices are assumed valid
(spec section 3 invariant); an out-of-range index yields a default item
rather than the `IndexError` of Python. -/
def item_text (e : Association) (item_index : ℕ) : String :=
  let item := e.items.getD item_index default
  if e.fields.length == 1 && !item.complement then item.name else item.description

/-- One iteration of the `describe` loop (source lines 322-332): the cell at
position `i` is replaced by the `" & "`-joined item texts of its index
list. -/
def describe_index (e : Association) (row : List Cell) (i : ℕ) : List Cell :=
  row.set i (.str (String.intercalate " & "
    ((cellIdxs (row.getD i (.idxs []))).map (item_text e))))

/-- The value of the rule row after `describe(rule_row)` returns (source lines
315-333): positions 1 and 2 are replaced in sequence.  The source performs
the replacement by in-place assignment and returns the same list object; see
`describe_call` for the object-level semantics. -/
def Association.describe (e : Association) (row : List Cell) : List Cell :=
  describe_index e (describe_index e row 1) 2

/-- Object-level semantics of `describe` over an explicit heap of row
objects: the source mutates `rule_row` in place (`rule_row[index] =
description`) and returns the very same object, so the heap cell named by the
argument reference is overwritten and the argument reference itself is
returned. -/
def describe_call (e : Association) (rows : List (List Cell)) (row_ref : ℕ) :
    List (List Cell) × ℕ :=
  (rows.set row_ref (e.describe (rows.getD row_ref [])), row_ref)

/-- Python 2 comparison of two metric values, as used by `sorted(...)` in
`summarize`: floats compare numerically, lists compare lexicographically, and
a float compares below a list (Python 2 orders values of different types by
type name, and `"float" < "list"`). -/
def mvLe (a b : MetricValue) : Bool :=
  match a, b with
  | .scalar x, .scalar y => decide (x ≤ y)
  | .scalar _, .pair _ _ => true
  | .pair _ _, .scalar _ => false
  | .pair f1 c1, .pair f2 c2 => decide (f1 < f2) || (decide (f1 = f2) && decide (c1 ≤ c2))

/-- Stable insertion of `x` in front of the first element it weakly precedes. -/
def insertDescBy (le : Bigml.AssociationRule → Bigml.AssociationRule → Bool)
    (x : Bigml.AssociationRule) : List Bigml.AssociationRule → List Bigml.AssociationRule
  | [] => [x]
  | y :: ys => if le x y then x :: y :: ys else y :: insertDescBy le x ys

/-- Stable insertion sort.  `sorted(rules, key=..., reverse=True)` of the
source is the unique stable descending ordering for the total preorder given
by the key; insertion sort computes the same list and, unlike `mergeSort`,
evaluates inside the kernel. -/
def insertionSortBy (le : Bigml.AssociationRule → Bigml.AssociationRule → Bool) :
    List Bigml.AssociationRule → List Bigml.AssociationRule
  | [] => []
  | x :: xs => insertDescBy le x (insertionSortBy le xs)

/-- The call `sorted(rules, key=lambda x: getattr(x, metric), reverse=True)`
(source lines 346-347): stable descending sort by the raw metric value. -/
def sort_by_metric (metric : Metric) (rules : List AssociationRule) : List AssociationRule :=
  insertionSortBy (fun a b => mvLe (getattrMetric b metric) (getattrMetric a metric)) rules

/-- The inner pairing scan of `summarize` (source lines 357-363): every
candidate whose `lhs`/`rhs` mirror the current rule and whose reversed-label
metric string equals the current metric string overwrites the label and the
connector; the last match wins. -/
def rule_connector (top_rules : List AssociationRule) (rule : AssociationRule)
    (metric_string : String) : String × String :=
  top_rules.foldl
    (fun acc item =>
      if rule.rhs == item.lhs && rule.lhs == item.rhs &&
          metric_string == get_metric_string item true then
        ("Rules " ++ rule.rule_id ++ ", " ++ item.rule_id ++ ": ", "<->")
      else acc)
    ("Rule " ++ rule.rule_id ++ ": ", "->")

/-- The emission test of `summarize` (source line 370): a line is emitted when
the connector is `"->"` or when the reverse-oriented text has not been
emitted before. -/
def emit_decision (operator : String) (ref_rules : List String) (reverse_rule : String) : Bool :=
  operator == "->" || !(ref_rules.contains reverse_rule)

/-- The candidate loop of `summarize` for one metric (source lines 350-378):
state is the emitted lines, the deduplication list `ref_rules` and the
counter; the loop stops once the counter exceeds `limit`. -/
def summarize_loop (e : Association) (limit : ℕ) (top_rules : List AssociationRule) :
    List AssociationRule → List String → List String → ℕ → List String
  | [], out_rules, _, _ => out_rules
  | rule :: rest, out_rules, ref_rules, counter =>
      let rule_row := e.describe rule.to_CSV
      let metric_string := get_metric_string rule false
      let rid_op := rule_connector top_rules rule metric_string
      let out_rule := cellStr (rule_row.getD 1 (.str "")) ++ " " ++ rid_op.2 ++ " " ++
        cellStr (rule_row.getD 2 (.str "")) ++ " [" ++ metric_string ++ "]"
      let reverse_rule := cellStr (rule_row.getD 2 (.str "")) ++ " " ++ rid_op.2 ++ " " ++
        cellStr (rule_row.getD 1 (.str "")) ++ " [" ++ metric_string ++ "]"
      if emit_decision rid_op.2 ref_rules reverse_rule then
        let out_rules := out_rules ++ [INDENT ++ INDENT ++ rid_op.1 ++ out_rule]
        if decide (counter + 1 > limit) then out_rules
        else summarize_loop e limit top_rules rest out_rules (ref_rules ++ [out_rule]) (counter + 1)
      else summarize_loop e limit top_rules rest out_rules ref_rules counter

/-- The lines emitted for one metric section of `summarize` (source lines
346-379): candidates are the top `2 * limit` rules in stable descending
metric order. -/
def summarize_metric_lines (e : Association) (limit : ℕ) (rules : List AssociationRule)
    (metric : Metric) : List String :=
  let top_rules := (sort_by_metric metric rules).take (limit * 2)
  summarize_loop e limit top_rules top_rules [] [] 0

/-- The method `summarize` (source lines 335-380), with the output sink
replaced by the produced string. -/
def Association.summarize (e : Association) (limit : ℕ)
    (min_leverage min_strength min_support min_p_value : Option ℚ)
    (item_list : Option (List ItemOrName))
    (filter_function : Option (AssociationRule → Bool)) : Except PyErr String := do
  let rules ← e.get_rules min_leverage min_strength min_support min_p_value
    item_list filter_function
  Except.ok ("Total number of rules: " ++ toString rules.length ++ "\n" ++
    String.join (ASSOCIATION_METRICS.map (fun metric =>
      "\n\nTop " ++ toString limit ++ " by " ++ METRIC_LITERALS metric ++ ":\n\n" ++
      String.intercalate "\n" (summarize_metric_lines e limit rules metric))) ++ "\n")

/-! Concrete fixtures used by the witnesses and counterexamples below.  All
rules built by `Mrule` carry the same metric record, whose metric string is
`MS`. -/

/-- A rule with fixed metric values (coverage 30% over 3 rows, support 0.2,
confidence 0.75, leverage 0.1, lift 1.5, p-value 0.001). -/
def Mrule (id : String) (lhs rhs : List ℕ) : AssociationRule :=
  { rule_id := id, lhs := lhs, rhs := rhs
    lhs_cover := .pair (mkRat 3 10) 3, rhs_cover := .pair (mkRat 3 10) 3
    support := mkRat 1 5, confidence := mkRat 3 4, leverage := mkRat 1 10
    lift := mkRat 3 2, p_value := mkRat 1 1000 }

/-- A non-complement item of the single field `"000000"` named `field1`. -/
def mkItem (i : ℕ) (n : String) : Item :=
  { index := i, field_id := "000000", name := n, complement := false,
    description := "field1 = " ++ n }

/-- The metric string of every rule built by `Mrule`. -/
def MS : String :=
  "Coverage=30.00% (3); Support=0.2; Confidence=75.00%; Leverage=0.1; Lift=1.5; p-value=0.001"

/-- Explorer for the C1 witness: three items, two rules. -/
def EW1 : Association :=
  { fields := [("000000", "field1")],
    items := [mkItem 0 "a", mkItem 1 "b", mkItem 2 "c"],
    rules := [Mrule "1" [0] [1], Mrule "2" [1] [2]] }

/-- Explorer for C2: two items named milk and bread, one rule. -/
def E2 : Association :=
  { fields := [("000000", "field1")],
    items := [mkItem 0 "milk", mkItem 1 "bread"],
    rules := [Mrule "1" [0] [1]] }

/-- Explorer for C3: two non-mirror rules with identical metric values. -/
def E3 : Association :=
  { fields := [("000000", "field1")],
    items := [mkItem 0 "a", mkItem 1 "b", mkItem 2 "c"],
    rules := [Mrule "1" [0] [1], Mrule "2" [1] [2]] }

/-- Explorer for the C4 counterexample: items 1 and 2 share the name `b`, so
rule `2` (`a -> b` through item 2) has the emitted line of rule `1`
(`b -> a` through item 1) as its reverse-oriented text while the two rules
are not index-level mirrors of each other. -/
def E4 : Association :=
  { fields := [("000000", "field1")],
    items := [mkItem 0 "a", mkItem 1 "b", mkItem 2 "b"],
    rules := [Mrule "1" [1] [0], Mrule "2" [0] [2]] }

/-- Explorer for the C4 amended theorem: a genuine mirror pair (rules 1 and 2
over items `c`, `d`) together with the duplicate-name pair of `E4` (rules 3
and 4). -/
def E4c : Association :=
  { fields := [("000000", "field1")],
    items := [mkItem 0 "a", mkItem 1 "b", mkItem 2 "b", mkItem 3 "c", mkItem 4 "d"],
    rules := [Mrule "1" [3] [4], Mrule "2" [4] [3], Mrule "3" [1] [0], Mrule "4" [0] [2]] }

/-- A concrete rule for C5 with a pair-valued coverage. -/
def R5 : AssociationRule := Mrule "1" [0] [1]

/-- Explorer for C6: exactly the two mirror rules of the claim, with
identical metric values. -/
def E6 : Association :=
  { fields := [("000000", "field1")],
    items := [mkItem 0 "a", mkItem 1 "b", mkItem 2 "c"],
    rules := [Mrule "1" [1] [2], Mrule "2" [2] [1]] }

/-- A rule for C7 whose antecedent coverage is the pair `[0.12345, 50]`. -/
def R7 : AssociationRule :=
  { rule_id := "1", lhs := [0], rhs := [1]
    lhs_cover := .pair (mkRat 12345 100000) 50, rhs_cover := .pair (mkRat 12345 100000) 50
    support := mkRat 1 5, confidence := mkRat 3 4, leverage := mkRat 1 10
    lift := mkRat 3 2, p_value := mkRat 1 1000 }

/-- Explorer for C8. -/
def E8 : Association :=
  { fields := [("000000", "field1")],
    items := [mkItem 0 "milk", mkItem 1 "bread"],
    rules := [] }

/-- A three-column rule row for C8 (id, antecedent indices, consequent
indices). -/
def ROW8 : List Cell := [Cell.str "1", Cell.idxs [0], Cell.idxs [1]]

/-- Explorer for the C9 witness. -/
def E9 : Association :=
  { fields := [("000000", "field1")],
    items := [mkItem 0 "milk", mkItem 1 "bread"],
    rules := [] }

/-- Explorer with no stored items at all, for the C9 empty-field witness. -/
def E9e : Association :=
  { fields := [("000000", "field1")], items := [], rules := [] }

/-- Explorer for the C10 counterexample: no stored rules at all. -/
def E10 : Association :=
  { fields := [("000000", "field1")],
    items := [mkItem 0 "a"],
    rules := [] }

/-- Explorer for the C10 witness: one stored rule with non-empty sides. -/
def E10b : Association :=
  { fields := [("000000", "field1")],
    items := [mkItem 0 "a", mkItem 1 "b"],
    rules := [Mrule "1" [0] [1]] }

end Bigml

namespace Bigml

/-! Helper lemmas shared by the claim theorems below. -/

/-- When the item list resolves to the index set `S`, the `item_list_set`
filter reduces, for every rule, to the membership test of `S` against the
two sides of the rule. -/
theorem item_list_set_resolved (e : Association) (l : List ItemOrName) (S : List ℕ)
    (h : resolve_item_indices e l = Except.ok S) (rule : AssociationRule) :
    item_list_set e (some l) rule =
      Except.ok (rule.lhs.any (S.contains ·) || rule.rhs.any (S.contains ·)) := by
  match l with
  | [] => simp [resolve_item_indices] at h
  | first :: rest =>
    cases first with
    | item it =>
        simp only [resolve_item_indices] at h
        simp only [item_list_set]
        rw [h]; rfl
    | name s =>
        simp only [resolve_item_indices, Except.ok.injEq] at h
        simp only [item_list_set]
        rw [h]
    | other =>
        simp [resolve_item_indices] at h

/-- The filtering loop of `get_rules` computes `List.filter` of the
conjunction of the six predicates whenever the item filter behaves like a
total boolean predicate `p`. -/
theorem get_rules_filter_eq (e : Association) (a b c d : Option ℚ)
    (il : Option (List ItemOrName)) (ff : Option (AssociationRule → Bool))
    (p : AssociationRule → Bool)
    (h : ∀ r, item_list_set e il r = Except.ok (p r)) :
    ∀ rules : List AssociationRule,
      get_rules_filter e a b c d il ff rules =
        Except.ok (rules.filter (fun r =>
          leverage_check a r && (strength_check b r && (support_check c r &&
            (p_value_check d r && (p r && filter_function_set ff r)))))) := by
  intro rules
  induction rules with
  | nil => rfl
  | cons r rest ih =>
      simp only [get_rules_filter, h r, ih, List.filter_cons, List.all_cons, List.all_nil,
        id_eq, Bool.and_true]
      rfl

/-- The item loop of `get_items` computes `List.filter` of the three
predicates whenever the field filter behaves like a total boolean predicate
`p`. -/
theorem get_items_loop_eq (field field_id : Option String)
    (names : Option (List ItemOrName)) (ff : Option (Item → Bool))
    (p : Item → Bool)
    (h : ∀ item, field_filter field field_id item = Except.ok (p item)) :
    ∀ items : List Item,
      get_items_loop field field_id names ff items =
        Except.ok (items.filter (fun item =>
          p item && (names_filter names item && filter_function_set_items ff item))) := by
  intro items
  induction items with
  | nil => rfl
  | cons it rest ih =>
      simp only [get_items_loop, h it, ih, List.filter_cons, List.all_cons, List.all_nil,
        id_eq, Bool.and_true]
      rfl

/-! Claim C1. -/

/-- C1: a `get_rules` call returns exactly the ordered subsequence (a
`List.filter`, hence a sublist in stored order) of the stored rules containing
a rule iff every supplied lower bound is met by the corresponding metric (an
absent bound always holds), the rule mentions an index of the resolved item
set when an item list is given, and the optional predicate accepts the
rule. -/
theorem get_rules_is_ordered_filter (e : Association) (a b c d : Option ℚ)
    (ff : Option (AssociationRule → Bool)) (l : List ItemOrName) (S : List ℕ) :
    Association.get_rules e a b c d none ff =
      Except.ok (e.rules.filter (fun r =>
        leverage_check a r && (strength_check b r && (support_check c r &&
          (p_value_check d r && filter_function_set ff r))))) ∧
    (e.rules.filter (fun r =>
        leverage_check a r && (strength_check b r && (support_check c r &&
          (p_value_check d r && filter_function_set ff r))))).Sublist e.rules ∧
    (resolve_item_indices e l = Except.ok S →
      Association.get_rules e a b c d (some l) ff =
        Except.ok (e.rules.filter (fun r =>
          leverage_check a r && (strength_check b r && (support_check c r &&
            (p_value_check d r && ((r.lhs.any (S.contains ·) || r.rhs.any (S.contains ·)) &&
              filter_function_set ff r))))))) := by
  refine ⟨?_, List.filter_sublist e.rules, ?_⟩
  · have h1 := get_rules_filter_eq e a b c d none ff (fun _ => true) (fun _ => rfl) e.rules
    unfold Association.get_rules
    rw [h1]
    simp only [Bool.true_and]
  · intro hres
    have h1 := get_rules_filter_eq e a b c d (some l) ff
      (fun r => r.lhs.any (S.contains ·) || r.rhs.any (S.contains ·))
      (item_list_set_resolved e l S hres) e.rules
    unfold Association.get_rules
    rw [h1]

/-- Witness for C1 at a concrete explorer: the name list `["a"]` resolves to
the index set `[0]` and the call returns exactly the rule mentioning item 0. -/
theorem get_rules_is_ordered_filter_witness :
    resolve_item_indices EW1 [ItemOrName.name "a"] = Except.ok [0] ∧
    Association.get_rules EW1 none none none none (some [ItemOrName.name "a"]) none =
      Except.ok [Mrule "1" [0] [1]] :=
  ⟨rfl, ((get_rules_is_ordered_filter EW1 none none none none none
    [ItemOrName.name "a"] [0]).2.2 rfl).trans (by rfl)⟩

end Bigml

namespace Bigml

/-! Claim C2. -/

/-- A call of `get_items` with no field argument never fails and returns the
filtered item list. -/
theorem get_items_no_field (e : Association) (names : Option (List ItemOrName))
    (ff : Option (Item → Bool)) :
    Association.get_items e none names ff =
      Except.ok (e.items.filter (fun item =>
        names_filter names item && filter_function_set_items ff item)) := by
  have h := get_items_loop_eq none none names ff (fun _ => true) (fun _ => rfl) e.items
  simp only [Bool.true_and] at h
  exact h

/-- C2 counterexample: a name list whose single name resolves to no item does
not raise any error; the call silently returns an empty result. -/
theorem get_rules_unresolvable_names_no_error_counterexample :
    Association.get_rules E2 none none none none (some [ItemOrName.name "nosuch"]) none =
      Except.ok [] := rfl

/-- C2 amended: when none of the names in the supplied list matches any item
of the explorer, `get_rules` does not fail: the names resolve to the empty
index set, every rule fails the item filter, and the empty list is returned
without an error. -/
theorem get_rules_unresolvable_names_silent (e : Association) (a b c d : Option ℚ)
    (ff : Option (AssociationRule → Bool)) (s : String) (rest : List ItemOrName)
    (h : ∀ it ∈ e.items, names_filter (some (ItemOrName.name s :: rest)) it = false) :
    Association.get_rules e a b c d (some (ItemOrName.name s :: rest)) ff = Except.ok [] := by
  have hf : e.items.filter (fun item =>
      names_filter (some (ItemOrName.name s :: rest)) item &&
        filter_function_set_items none item) = [] := by
    rw [List.filter_eq_nil_iff]
    intro it hit
    simp [filter_function_set_items, h it hit]
  have hres : resolve_item_indices e (ItemOrName.name s :: rest) = Except.ok [] := by
    simp only [resolve_item_indices]
    rw [(get_items_no_field e (some (ItemOrName.name s :: rest)) none).trans
      (congrArg Except.ok hf)]
    rfl
  have hi : ∀ rule, item_list_set e (some (ItemOrName.name s :: rest)) rule =
      Except.ok false := by
    intro rule
    rw [item_list_set_resolved e _ [] hres rule]
    simp
  unfold Association.get_rules
  rw [get_rules_filter_eq e a b c d _ ff (fun _ => false) hi e.rules]
  simp

/-- Witness for C2 amended at a concrete explorer. -/
theorem get_rules_unresolvable_names_silent_witness :
    (∀ it ∈ E2.items, names_filter (some [ItemOrName.name "zzz"]) it = false) ∧
    Association.get_rules E2 none none none none (some [ItemOrName.name "zzz"]) none =
      Except.ok [] :=
  ⟨by decide, get_rules_unresolvable_names_silent E2 none none none none none "zzz" []
    (by decide)⟩

/-! Claim C3. -/

/-- C3 (code bug): with `limit = 1` the support section of `summarize` for
`E3` emits two lines, not at most one: the loop breaks only once the counter
exceeds the limit, i.e. after `limit + 1` accepted lines. -/
theorem summarize_limit_off_by_one :
    summarize_metric_lines E3 1 E3.rules Metric.support =
      ["        Rule 1: a -> b [" ++ MS ++ "]",
       "        Rule 2: b -> c [" ++ MS ++ "]"] := rfl

/-! Claim C4. -/

/-- C4 counterexample: in `E4` the reverse-oriented text of rule `2`
(`b -> a [MS]`) is exactly the line already emitted for rule `1`, yet rule
`2` is emitted anyway because the deduplication test is bypassed for the
unidirectional connector. -/
theorem summarize_unidirectional_not_skipped_counterexample :
    summarize_metric_lines E4 10 E4.rules Metric.support =
      ["        Rule 1: b -> a [" ++ MS ++ "]",
       "        Rule 2: a -> b [" ++ MS ++ "]"] := rfl

/-- C4 amended: the emission test accepts every rule with connector `"->"`
regardless of previously emitted lines, and skips a rule with connector
`"<->"` exactly when its reverse-oriented text was already emitted, so a
bidirectional pair is emitted once; in `E4c` both behaviours are visible in
one run for every metric. -/
theorem summarize_dedup_only_bidirectional :
    (∀ refs rev, emit_decision "->" refs rev = true) ∧
    (∀ refs rev, emit_decision "<->" refs rev = !(refs.contains rev)) ∧
    (∀ m : Metric, summarize_metric_lines E4c 10 E4c.rules m =
      ["        Rules 1, 2: c <-> d [" ++ MS ++ "]",
       "        Rule 3: b -> a [" ++ MS ++ "]",
       "        Rule 4: a -> b [" ++ MS ++ "]"]) :=
  ⟨fun _ _ => rfl, fun _ _ => rfl, fun m => by cases m <;> rfl⟩

/-! Claim C5. -/

set_option maxRecDepth 4000 in
/-- C5 counterexample: with `reverse = true` the metric string of `R5` still
begins with the antecedent-coverage label `Coverage=` and is identical to the
forward string; no label is swapped. -/
theorem get_metric_string_reverse_label_counterexample :
    get_metric_string R5 true = MS ∧ get_metric_string R5 false = MS ∧
    MS.take 9 = "Coverage=" := ⟨rfl, rfl, by decide⟩

/-- C5 amended: the `reverse` flag has no effect at all on the produced
string: the `metric_key` local it drives is computed but never used, so both
the labels and the values are those of the forward orientation for every
rule. -/
theorem get_metric_string_reverse_irrelevant (r : AssociationRule) (b : Bool) :
    get_metric_string r b = get_metric_string r false := by
  cases b <;> rfl

/-! Claim C6. -/

/-- C6: an explorer holding exactly the two mirror rules with identical
metric values emits, for every metric section, exactly one combined line with
the `<->` connector and both rule ids in its label. -/
theorem summarize_bidirectional_pair_once (m : Metric) :
    E6.rules = [Mrule "1" [1] [2], Mrule "2" [2] [1]] ∧
    summarize_metric_lines E6 10 E6.rules m =
      ["        Rules 1, 2: b <-> c [" ++ MS ++ "]"] :=
  ⟨rfl, by cases m <;> rfl⟩

/-! Claim C7. -/

/-- C7: a pair-valued metric renders as `Label=XX.XX% (count)` where the
percentage is the fraction rounded to four decimals and scaled to two-decimal
percent; in particular a coverage of `[0.12345, 50]` renders as
`Coverage=12.35% (50)`. -/
theorem pair_metric_percent_format (metric : Metric) (f : ℚ) (c : ℕ)
    (r : AssociationRule) (h : getattrMetric r metric = MetricValue.pair f c) :
    metric_fragment r false metric =
      METRIC_LITERALS metric ++ "=" ++ pctString f ++ "% (" ++ toString c ++ ")" ∧
    metric_fragment R7 false Metric.lhs_cover = "Coverage=12.35% (50)" := by
  refine ⟨?_, rfl⟩
  simp only [metric_fragment, h]

/-- Witness for C7 at the concrete rule `R7`. -/
theorem pair_metric_percent_format_witness :
    getattrMetric R7 Metric.lhs_cover = MetricValue.pair (mkRat 12345 100000) 50 ∧
    metric_fragment R7 false Metric.lhs_cover =
      METRIC_LITERALS Metric.lhs_cover ++ "=" ++ pctString (mkRat 12345 100000) ++
        "% (" ++ toString (50 : ℕ) ++ ")" :=
  ⟨rfl, (pair_metric_percent_format Metric.lhs_cover (mkRat 12345 100000) 50 R7 rfl).1⟩

end Bigml

namespace Bigml

/-! Claim C8. -/

/-- C8 counterexample: `describe` hands back the very reference it was given
(`0`), not a new row, and the row object behind that reference has been
overwritten with the description strings. -/
theorem describe_same_object_counterexample :
    (describe_call E8 [ROW8] 0).2 = 0 ∧
    (describe_call E8 [ROW8] 0).1.getD 0 [] ≠ ROW8 ∧
    (describe_call E8 [ROW8] 0).1.getD 0 [] =
      [Cell.str "1", Cell.str "milk", Cell.str "bread"] :=
  ⟨rfl, by decide, rfl⟩

/-- C8 amended: `describe` leaves the explorer and every other row object
untouched, but it mutates the argument row in place — positions 1 and 2 are
replaced by the `" & "`-joined item texts (`item_text`: bare item name iff
the dataset has exactly one field and the item is not a complement item, full
description otherwise), all other positions are unchanged — and returns the
same row reference, not a new row. -/
theorem describe_call_in_place (e : Association) (rows : List (List Cell)) (i : ℕ)
    (h1 : i < rows.length) (h2 : 3 ≤ (rows.getD i []).length) :
    (describe_call e rows i).2 = i ∧
    (∀ j, j ≠ i → (describe_call e rows i).1.getD j [] = rows.getD j []) ∧
    (describe_call e rows i).1.getD i [] = e.describe (rows.getD i []) ∧
    (∀ k, k ≠ 1 → k ≠ 2 →
      (e.describe (rows.getD i [])).getD k (Cell.str "") =
        (rows.getD i []).getD k (Cell.str "")) ∧
    (e.describe (rows.getD i [])).getD 1 (Cell.str "") =
      Cell.str (String.intercalate " & "
        ((cellIdxs ((rows.getD i []).getD 1 (Cell.idxs []))).map (item_text e))) ∧
    (e.describe (rows.getD i [])).getD 2 (Cell.str "") =
      Cell.str (String.intercalate " & "
        ((cellIdxs ((rows.getD i []).getD 2 (Cell.idxs []))).map (item_text e))) := by
  have hlen1 : 1 < (rows.getD i []).length := by omega
  have hlen2 : 2 < (rows.getD i []).length := by omega
  simp only [List.getD_eq_getElem?_getD] at hlen1 hlen2
  refine ⟨rfl, ?_, ?_, ?_, ?_, ?_⟩
  · intro j hj
    simp [describe_call, List.getD_eq_getElem?_getD, List.getElem?_set_ne (Ne.symm hj)]
  · simp [describe_call, List.getD_eq_getElem?_getD, List.getElem?_set_self, h1]
  · intro k hk1 hk2
    simp [Association.describe, describe_index, List.getD_eq_getElem?_getD,
      List.getElem?_set_ne (Ne.symm hk2), List.getElem?_set_ne (Ne.symm hk1)]
  · simp [Association.describe, describe_index, List.getD_eq_getElem?_getD,
      List.getElem?_set_ne (by decide : (2:ℕ) ≠ 1), List.getElem?_set_self, hlen1]
  · simp [Association.describe, describe_index, List.getD_eq_getElem?_getD,
      List.getElem?_set_self, List.getElem?_set_ne (by decide : (1:ℕ) ≠ 2), hlen2]

/-- Witness for C8 amended at the concrete explorer `E8`. -/
theorem describe_call_in_place_witness :
    0 < ([ROW8] : List (List Cell)).length ∧ 3 ≤ (([ROW8] : List (List Cell)).getD 0 []).length ∧
    (describe_call E8 [ROW8] 0).2 = 0 ∧
    (describe_call E8 [ROW8] 0).1.getD 0 [] = E8.describe (([ROW8] : List (List Cell)).getD 0 []) :=
  ⟨by decide, by decide,
    (describe_call_in_place E8 [ROW8] 0 (by decide) (by decide)).1,
    (describe_call_in_place E8 [ROW8] 0 (by decide) (by decide)).2.2.1⟩

end Bigml

namespace Bigml

/-! Claim C9. -/

/-- C9 counterexample: the empty string resolves to neither a known field id
nor a known field name of `E9`, yet the call does not fail with the
`UnknownField` `ValueError`: the `if field:` guard is false for the falsy
empty string, the resolution block is skipped, and the unassigned `field_id`
local raises `NameError` as soon as the first stored item is tested. -/
theorem get_items_empty_field_counterexample :
    ((E9.fields.map Prod.fst).contains "" = false ∧ ∀ pr ∈ E9.fields, (pr.2 == "") = false) ∧
    E9.items ≠ [] ∧
    Association.get_items E9 (some "") none none = Except.error PyErr.nameError :=
  ⟨by decide, by decide, rfl⟩

/-- C9 amended: for every non-empty field string, `get_items` fails (with the
`ValueError` the spec calls `UnknownField`) exactly when the argument is
neither a known field id nor a known field name, and when the field resolves
the call succeeds and returns the ordered subsequence of items passing the
field match, the name filter and the predicate.  The empty string is falsy,
so it skips resolution: the call then fails with `NameError` from the
unassigned `field_id` local as soon as an item is tested, and returns an
empty result without error when no items are stored. -/
theorem get_items_field_resolution (e : Association) (f : String)
    (names : Option (List ItemOrName)) (ff : Option (Item → Bool)) :
    (f ≠ "" →
      ((∃ err, field_resolve e f = Except.error err) ↔
        ((e.fields.map Prod.fst).contains f = false ∧ ∀ pr ∈ e.fields, (pr.2 == f) = false)) ∧
      (∀ fid, field_resolve e f = Except.ok fid →
        Association.get_items e (some f) names ff =
          Except.ok (e.items.filter (fun item =>
            (item.field_id == fid) &&
              (names_filter names item && filter_function_set_items ff item)))) ∧
      (∀ err, field_resolve e f = Except.error err →
        Association.get_items e (some f) names ff = Except.error err)) ∧
    (e.items = [] → Association.get_items e (some "") names ff = Except.ok []) ∧
    (e.items ≠ [] →
      Association.get_items e (some "") names ff = Except.error PyErr.nameError) := by
  refine ⟨fun hf0 => ⟨?_, ?_, ?_⟩, ?_, ?_⟩
  · unfold field_resolve
    cases hc : (e.fields.map Prod.fst).contains f with
    | true =>
        rw [if_pos rfl]
        constructor
        · rintro ⟨err, herr⟩; cases herr
        · rintro ⟨hfalse, -⟩; cases hfalse
    | false =>
        rw [if_neg (by decide)]
        cases hf : e.fields.find? (fun p => p.2 == f) with
        | some p =>
            constructor
            · rintro ⟨err, herr⟩; cases herr
            · rintro ⟨-, hall⟩
              have hp := List.find?_some hf
              rw [hall p (List.mem_of_find?_eq_some hf)] at hp
              cases hp
        | none =>
            constructor
            · rintro -
              refine ⟨rfl, fun pr hpr => ?_⟩
              simpa using List.find?_eq_none.mp hf pr hpr
            · rintro -
              exact ⟨_, rfl⟩
  · intro fid hok
    have h2 : resolve_field_id e (some f) = Except.ok (some fid) := by
      simp only [resolve_field_id]
      rw [if_neg hf0, hok]
      rfl
    unfold Association.get_items
    rw [h2]
    exact get_items_loop_eq (some f) (some fid) names ff
      (fun item => item.field_id == fid) (fun _ => rfl) e.items
  · intro err herr
    have h2 : resolve_field_id e (some f) = Except.error err := by
      simp only [resolve_field_id]
      rw [if_neg hf0, herr]
      rfl
    unfold Association.get_items
    rw [h2]
    rfl
  · intro hits
    have h2 : Association.get_items e (some "") names ff =
        get_items_loop (some "") none names ff e.items := rfl
    rw [h2, hits]
    rfl
  · intro hne
    obtain ⟨it, rest, hr⟩ := List.exists_cons_of_ne_nil hne
    have h2 : Association.get_items e (some "") names ff =
        get_items_loop (some "") none names ff e.items := rfl
    rw [h2, hr]
    rfl

/-- Witness for C9 amended: at `E9`, the unknown field `bogus` makes the call
fail with the `ValueError`, the field name `field1` resolves to the field id
`000000` (every item of which is returned), the empty field on the item-free
explorer `E9e` returns an empty result, and the empty field on `E9` fails
with `NameError`. -/
theorem get_items_field_resolution_witness :
    ("bogus" ≠ "") ∧ ("field1" ≠ "") ∧
    field_resolve E9 "bogus" =
      Except.error (PyErr.valueError
        "Failed to find a field name or ID corresponding to bogus.") ∧
    Association.get_items E9 (some "bogus") none none =
      Except.error (PyErr.valueError
        "Failed to find a field name or ID corresponding to bogus.") ∧
    field_resolve E9 "field1" = Except.ok "000000" ∧
    Association.get_items E9 (some "field1") none none = Except.ok E9.items ∧
    E9e.items = [] ∧
    Association.get_items E9e (some "") none none = Except.ok [] ∧
    E9.items ≠ [] ∧
    Association.get_items E9 (some "") none none = Except.error PyErr.nameError :=
  ⟨by decide, by decide, rfl,
    ((get_items_field_resolution E9 "bogus" none none).1 (by decide)).2.2 _ rfl,
    rfl,
    (((get_items_field_resolution E9 "field1" none none).1 (by decide)).2.1
      "000000" rfl).trans (by rfl),
    rfl,
    (get_items_field_resolution E9e "" none none).2.1 rfl,
    by decide,
    (get_items_field_resolution E9 "" none none).2.2 (by decide)⟩

end Bigml

namespace Bigml

/-! Claim C10. -/

/-- C10 counterexample: with no stored rules the filter body never runs, so
`get_rules` with an empty item list returns normally instead of failing. -/
theorem get_rules_empty_item_list_counterexample :
    E10.rules = [] ∧
    Association.get_rules E10 none none none none (some []) none = Except.ok [] :=
  ⟨rfl, rfl⟩

/-- An `item_list` whose first element is neither an `Item` nor a string
makes the filtering loop fail with `UnboundLocalError` as soon as it reaches
a rule with a non-empty side. -/
theorem get_rules_filter_other_err (e : Association) (a b c d : Option ℚ)
    (ff : Option (AssociationRule → Bool)) (rest : List ItemOrName) :
    ∀ rules : List AssociationRule, (∃ r ∈ rules, r.lhs ≠ [] ∨ r.rhs ≠ []) →
      get_rules_filter e a b c d (some (ItemOrName.other :: rest)) ff rules =
        Except.error PyErr.unboundLocalError := by
  intro rules
  induction rules with
  | nil => rintro ⟨r, hr, -⟩; exact absurd hr (List.not_mem_nil r)
  | cons r rs ih =>
      rintro ⟨r', hr', hne⟩
      by_cases hemp : (r.lhs.isEmpty && r.rhs.isEmpty) = true
      · have hi : item_list_set e (some (ItemOrName.other :: rest)) r = Except.ok false := by
          simp [item_list_set, hemp]
        have hr'' : r' ∈ rs := by
          rcases List.mem_cons.mp hr' with h1 | h1
          · rw [h1] at hne
            have hemp2 : r.lhs.isEmpty = true ∧ r.rhs.isEmpty = true := by
              simpa using hemp
            rcases hemp2 with ⟨hl, hro⟩
            rcases hne with h4 | h4
            · exact absurd (List.isEmpty_iff.mp hl) h4
            · exact absurd (List.isEmpty_iff.mp hro) h4
          · exact h1
        simp only [get_rules_filter, hi, ih ⟨r', hr'', hne⟩]
        rfl
      · have hi : item_list_set e (some (ItemOrName.other :: rest)) r =
            Except.error PyErr.unboundLocalError := by
          simp only [item_list_set, if_neg hemp]
        simp only [get_rules_filter, hi]
        rfl

/-- C10 amended: the filter body inspects `item_list[0]` unguardedly, so an
empty item list fails with `IndexError` whenever at least one rule is stored,
and a first element that is neither an `Item` nor a name string fails with
`UnboundLocalError` whenever some stored rule has a non-empty `lhs` or `rhs`;
with no such rule the filter body (or its membership loops) never runs and no
error is raised. -/
theorem get_rules_unguarded_item_list (e : Association) (a b c d : Option ℚ)
    (ff : Option (AssociationRule → Bool)) (rest : List ItemOrName) :
    (e.rules ≠ [] →
      Association.get_rules e a b c d (some []) ff = Except.error PyErr.indexError) ∧
    ((∃ r ∈ e.rules, r.lhs ≠ [] ∨ r.rhs ≠ []) →
      Association.get_rules e a b c d (some (ItemOrName.other :: rest)) ff =
        Except.error PyErr.unboundLocalError) := by
  constructor
  · intro hne
    obtain ⟨r, rs, hr⟩ := List.exists_cons_of_ne_nil hne
    unfold Association.get_rules
    rw [hr]
    rfl
  · intro hex
    exact get_rules_filter_other_err e a b c d ff rest e.rules hex

/-- Witness for C10 amended at the concrete explorer `E10b`. -/
theorem get_rules_unguarded_item_list_witness :
    E10b.rules ≠ [] ∧
    Association.get_rules E10b none none none none (some []) none =
      Except.error PyErr.indexError ∧
    (∃ r ∈ E10b.rules, r.lhs ≠ [] ∨ r.rhs ≠ []) ∧
    Association.get_rules E10b none none none none (some [ItemOrName.other]) none =
      Except.error PyErr.unboundLocalError :=
  ⟨by decide,
    (get_rules_unguarded_item_list E10b none none none none none []).1 (by decide),
    by decide,
    (get_rules_unguarded_item_list E10b none none none none none []).2 (by decide)⟩

end Bigml
